import Mathlib

/-!
Verification of the Well-Bot chat-turn pipeline.

Shallow embedding of the core of the repository:
  * src/backend/mcp_tools/envelopes.py       (Card envelope model and constructors)
  * src/backend/mcp_tools/tools/safety_tool.py (keyword safety check)
  * src/backend/core/intent_detector.py      (hybrid regex and LLM intent detection)
  * src/backend/services/deepseek.py         (LLM classification entry point)
  * src/backend/api/routes/llm.py            (chat-turn orchestration)
  * src/backend/api/routes/speech.py         (upstream-to-client transcript relay)
  * src/backend/services/deepgram_stt.py     (transcript message parsing)

Python strings are Lean strings, Python ints are Int, Python floats that are
only ever copied (the confidence literals 0.95, 0.5, 0.3) are rationals,
Python dict payloads are association lists, and code that can raise returns
Except.  External collaborators (the LLM provider, the wall clock, upstream
websocket traffic) enter as explicit oracle parameters.
-/

namespace WellBot

set_option maxRecDepth 100000

/-! ## Python string primitives

Helpers mirroring the Python string operations the pipeline uses:
substring containment (the in operator), lower-casing, and strip().
The inputs settled concretely below are ASCII, where Lean's Char.toLower
and Char.isAlphanum agree with Python's str.lower and the word class. -/

/-- Python list/str containment at the character-list level: needle occurs
contiguously inside hay (the empty needle is contained everywhere). -/
def listContains (needle : List Char) : List Char → Bool
  | [] => needle.isEmpty
  | c :: rest => needle.isPrefixOf (c :: rest) || listContains needle rest

/-- Python substring test: needle in hay. -/
def pyContains (hay needle : String) : Bool :=
  listContains needle.data hay.data

/-- Python whitespace class (the chars of str.strip and the regex class s):
space, tab, newline, carriage return, vertical tab, form feed. -/
def isPyWs (c : Char) : Bool :=
  c = ' ' || c = '\t' || c = '\n' || c = '\r' || c = Char.ofNat 11 || c = Char.ofNat 12

/-- Python str.lower() over the character list (ASCII agreement with
Lean's Char.toLower). -/
def pyLower (s : String) : String :=
  String.mk (s.data.map Char.toLower)

/-- Python str.strip(): drop whitespace from both ends. -/
def pyStrip (s : List Char) : List Char :=
  ((s.dropWhile isPyWs).reverse.dropWhile isPyWs).reverse

/-! ## Envelope and card model (src/backend/mcp_tools/envelopes.py) -/

/-- Value stored under a key of a card's meta dict: the pipeline only ever
stores strings and lists of strings there. -/
inductive MetaVal where
  | str (s : String)
  | strList (l : List String)
deriving DecidableEq, Repr

/-- Meta mapping of a card (a Python dict with string keys). -/
abbrev Meta : Type := List (String × MetaVal)

/-- Lookup in a meta dict, modelling dict.get(key). -/
def metaGet (m : Meta) (k : String) : Option MetaVal :=
  List.lookup k m

/-- Request envelope for MCP tools (class MCPRequest). -/
structure MCPRequest where
  trace_id : String
  user_id : String
  conversation_id : Option String
  session_id : Option String
  args : List (String × String)
  ts_utc : String
deriving DecidableEq, Repr

/-- Diagnostic information for responses (class Diagnostics). -/
structure Diagnostics where
  tool : String
  duration_ms : Int
  memory_used : Option Bool
  memory_latency_ms : Option Int
deriving DecidableEq, Repr

/-- IDs of persisted entities (class PersistedIds). -/
structure PersistedIds where
  primary_id : Option String
  extra : List String
deriving DecidableEq, Repr

/-- Status literal of a card. -/
inductive Status where
  | ok
  | error
deriving DecidableEq, Repr

/-- Type literal of a card. -/
inductive CardType where
  | card
  | overlay_control
  | error_card
deriving DecidableEq, Repr

/-- Response card following the envelope structure (class Card). -/
structure Card where
  status : Status
  type : CardType
  title : String
  body : String
  meta : Meta
  persisted_ids : PersistedIds
  diagnostics : Diagnostics
  error_code : Option String
deriving DecidableEq, Repr

/-- Helper ok_card: optional arguments are passed as Option, mirroring the
Python defaults of an empty meta dict, PersistedIds(), and
Diagnostics(tool=unknown, duration_ms=0). -/
def ok_card (title body : String) (meta : Option Meta) (persisted_ids : Option PersistedIds)
    (diagnostics : Option Diagnostics) : Card :=
  ⟨Status.ok, CardType.card, title, body, meta.getD [], persisted_ids.getD ⟨none, []⟩,
    diagnostics.getD ⟨"unknown", 0, none, none⟩, none⟩

/-- Helper error_card: status error, type error_card, meta holding the tool
name and the error code, error_code set. -/
def error_card (title body error_code tool : String) (diagnostics : Option Diagnostics) : Card :=
  ⟨Status.error, CardType.error_card, title, body,
    [("tool", MetaVal.str tool), ("error_code", MetaVal.str error_code)],
    ⟨none, []⟩, diagnostics.getD ⟨tool, 0, none, none⟩, some error_code⟩

/-- Helper overlay_control: status ok, type overlay_control. -/
def overlay_control (title body : String) (meta : Option Meta)
    (diagnostics : Option Diagnostics) : Card :=
  ⟨Status.ok, CardType.overlay_control, title, body, meta.getD [], ⟨none, []⟩,
    diagnostics.getD ⟨"unknown", 0, none, none⟩, none⟩

/-! ## Safety tool (src/backend/mcp_tools/tools/safety_tool.py)

The tool's check(ctx, req) reads the text from the request args and scans it,
lower-cased, for a fixed list of crisis phrases.  Both of its return branches
build the diagnostics from ctx.timing.timing(); the chat-turn route calls the
tool with ctx = None, on which that attribute access raises AttributeError.
The ctx parameter is modelled as the elapsed-milliseconds value that
ctx.timing.timing() would return, when a context is present at all. -/

/-- Fixed list of crisis phrases scanned by the safety tool. -/
def concerning_phrases : List String :=
  ["hurt myself", "kill myself", "end it all", "not worth living",
   "suicide", "self harm", "cut myself", "overdose"]

/-- Supportive body text of the triggered safety card. -/
def supportBody : String :=
  "If you're having thoughts of self-harm, please reach out for help. You can contact the National Suicide Prevention Lifeline at 988 or text HOME to 741741 for crisis support. You're not alone, and there are people who care about you."

/-- Safety tool check(ctx, req).  With ctx = none the Python code raises
AttributeError at ctx.timing.timing() before either card can be returned;
with a context present it returns the support card when a phrase matches and
the no-concerns card otherwise. -/
def safety_check (ctx : Option Int) (req : MCPRequest) : Except String Card :=
  let text := (List.lookup "text" req.args).getD ""
  let text_lower := pyLower text
  let found_concerns := concerning_phrases.filter (fun phrase => pyContains text_lower phrase)
  match ctx with
  | none => Except.error "AttributeError: 'NoneType' object has no attribute 'timing'"
  | some elapsed =>
    if !found_concerns.isEmpty then
      Except.ok (ok_card "Support Resources" supportBody
        (some [("kind", MetaVal.str "info"), ("action", MetaVal.str "show_support_card"),
               ("concerns_found", MetaVal.strList found_concerns)])
        none (some ⟨"safety.check", elapsed, none, none⟩))
    else
      Except.ok (ok_card "Safety Check Complete" "No safety concerns detected."
        (some [("kind", MetaVal.str "info"), ("action", MetaVal.str "none")])
        none (some ⟨"safety.check", elapsed, none, none⟩))

/-! ## Regex fragment (semantics of the re patterns of intent_detector.py)

The six fast-path patterns and the five argument-extraction patterns use a
small regex fragment: case-insensitive literals, whitespace-plus, word
boundaries, concatenation, alternation, optional groups, and one trailing
greedy capture group (.+).  A backtracking matcher enumerates the ways a
pattern can match at a position, in Python's backtracking priority order
(greedy quantifiers longest first, alternation left first, optional groups
with content first), so the head of the enumeration is Python's match. -/

/-- Python word-class char (ASCII part of the regex class w). -/
def isPyWordChar (c : Char) : Bool :=
  c.isAlphanum || c = '_'

/-- Regex fragment used by the intent detector's patterns. -/
inductive RE where
  | lit (l : List Char)
  | wsPlus
  | wb
  | seq (a b : RE)
  | alt (a b : RE)
  | opt (a : RE)
deriving Repr

/-- Concatenation of a list of pattern pieces. -/
def seqList (l : List RE) : RE :=
  l.foldr RE.seq (RE.lit [])

/-- Word boundary test between a previous char (none at the start of the
text) and the remaining suffix. -/
def atBoundary (prev : Option Char) (s : List Char) : Bool :=
  let l := match prev with
    | none => false
    | some c => isPyWordChar c
  let r := match s with
    | [] => false
    | c :: _ => isPyWordChar c
  l != r

/-- Case-insensitive literal match: consume the pattern chars from the text,
returning the new previous char and remaining suffix. -/
def matchLit : List Char → Option Char → List Char → List (Option Char × List Char)
  | [], prev, s => [(prev, s)]
  | _ :: _, _, [] => []
  | c :: cs, _, d :: ds => if d.toLower = c then matchLit cs (some d) ds else []

/-- All nonempty whitespace-run prefixes, shortest first. -/
def wsRuns : Option Char → List Char → List (Option Char × List Char)
  | _, [] => []
  | _, c :: cs => if isPyWs c then (some c, cs) :: wsRuns (some c) cs else []

/-- All ways a pattern matches a prefix of the text, as pairs of the char
just before the remaining suffix and the suffix itself, in Python's
backtracking priority order. -/
def matchRE : RE → Option Char → List Char → List (Option Char × List Char)
  | RE.lit l, prev, s => matchLit l prev s
  | RE.wsPlus, prev, s => (wsRuns prev s).reverse
  | RE.wb, prev, s => if atBoundary prev s then [(prev, s)] else []
  | RE.seq a b, prev, s => (matchRE a prev s).flatMap (fun pr => matchRE b pr.1 pr.2)
  | RE.alt a b, prev, s => matchRE a prev s ++ matchRE b prev s
  | RE.opt a, prev, s => matchRE a prev s ++ [(prev, s)]

/-- Unanchored boolean search, as pattern.search(text) used as a truth
value: does the pattern match starting at any position. -/
def reSearchAux (re : RE) : Option Char → List Char → Bool
  | prev, [] => !(matchRE re prev []).isEmpty
  | prev, c :: cs => !(matchRE re prev (c :: cs)).isEmpty || reSearchAux re (some c) cs

/-- Boolean re.search over a string. -/
def reSearch (re : RE) (text : String) : Bool :=
  reSearchAux re none text.data

/-- Greedy trailing capture (.+) at the end of a pattern: the longest
nonempty run of non-newline chars at the current position. -/
def capDotPlus (s : List Char) : Option (List Char) :=
  let d := s.takeWhile (fun c => c != '\n')
  if d.isEmpty then none else some d

/-- Group captured by a pattern of the shape prefix-regex, whitespace-plus,
then (.+), matching at the current position: the prefix alternatives are
tried in priority order and the first that leaves a valid capture wins. -/
def capTryAt (re : RE) (prev : Option Char) (s : List Char) : Option (List Char) :=
  (matchRE (RE.seq re RE.wsPlus) prev s).findSome? (fun pr => capDotPlus pr.2)

/-- Leftmost search with the trailing capture: earliest start position wins. -/
def capSearchAux (re : RE) : Option Char → List Char → Option (List Char)
  | prev, [] => capTryAt re prev []
  | prev, c :: cs =>
    match capTryAt re prev (c :: cs) with
    | some g => some g
    | none => capSearchAux re (some c) cs

/-- Captured group of re.search(prefix + ws-plus + capture, text), as a list
of chars, none when the whole pattern does not match. -/
def capGroup (re : RE) (text : String) : Option (List Char) :=
  capSearchAux re none text.data

/-! ## Intent detector (src/backend/core/intent_detector.py) -/

/-- Pattern for journal.start, compiled from start ws journal with word
boundaries, case-insensitive. -/
def reJournalStart : RE :=
  seqList [RE.wb, RE.lit "start".data, RE.wsPlus, RE.lit "journal".data, RE.wb]

/-- Pattern for todo.list: show, optional my, to, optional hyphen, do. -/
def reTodoList : RE :=
  seqList [RE.wb, RE.lit "show".data, RE.wsPlus, RE.opt (seqList [RE.lit "my".data, RE.wsPlus]),
    RE.lit "to".data, RE.opt (RE.lit "-".data), RE.lit "do".data, RE.wb]

/-- Pattern for todo.add: add, to, optional hyphen, do. -/
def reTodoAdd : RE :=
  seqList [RE.wb, RE.lit "add".data, RE.wsPlus,
    RE.lit "to".data, RE.opt (RE.lit "-".data), RE.lit "do".data, RE.wb]

/-- Pattern for quote.get: optional give me a, then quote. -/
def reQuoteGet : RE :=
  seqList [RE.wb,
    RE.opt (seqList [RE.lit "give".data, RE.wsPlus, RE.lit "me".data, RE.wsPlus,
      RE.lit "a".data, RE.wsPlus]),
    RE.lit "quote".data, RE.wb]

/-- Pattern for meditation.play: optional start, then meditation. -/
def reMeditationPlay : RE :=
  seqList [RE.wb, RE.opt (seqList [RE.lit "start".data, RE.wsPlus]),
    RE.lit "meditation".data, RE.wb]

/-- Pattern for session.end: bye, talk later, or goodbye. -/
def reSessionEnd : RE :=
  seqList [RE.wb,
    RE.alt (RE.lit "bye".data)
      (RE.alt (seqList [RE.lit "talk".data, RE.wsPlus, RE.lit "later".data])
        (RE.lit "goodbye".data)),
    RE.wb]

/-- The detector's pattern table, in its fixed insertion order. -/
def patternList : List (String × RE) :=
  [("journal.start", reJournalStart), ("todo.list", reTodoList), ("todo.add", reTodoAdd),
   ("quote.get", reQuoteGet), ("meditation.play", reMeditationPlay),
   ("session.end", reSessionEnd)]

/-- Capture-prefix of the extraction pattern add ws to-do ws capture (note:
no trailing word boundary in this pattern). -/
def reAddVerbCap : RE :=
  seqList [RE.wb, RE.lit "add".data, RE.wsPlus,
    RE.lit "to".data, RE.opt (RE.lit "-".data), RE.lit "do".data]

/-- Capture-prefix of the gratitude extraction pattern. -/
def reGratitudeCap : RE :=
  seqList [RE.wb,
    RE.alt (RE.lit "gratitude".data) (RE.alt (RE.lit "grateful".data) (RE.lit "thankful".data))]

/-- Capture-prefix of the journal topic extraction pattern about ws capture. -/
def reAboutCap : RE :=
  seqList [RE.wb, RE.lit "about".data]

/-- Capture-prefix of the todo.complete extraction pattern. -/
def reCompleteCap : RE :=
  seqList [RE.wb,
    RE.alt (RE.lit "complete".data) (RE.alt (RE.lit "finish".data) (RE.lit "done".data))]

/-- Capture-prefix of the todo.delete extraction pattern. -/
def reDeleteCap : RE :=
  seqList [RE.wb, RE.alt (RE.lit "delete".data) (RE.lit "remove".data)]

/-- Result triple of intent detection: intent name, confidence, and string
arguments.  The confidence literals are exact rationals standing for the
Python float literals that are copied, never computed with. -/
structure IntentResult where
  intent : String
  confidence : ℚ
  args : List (String × String)
deriving DecidableEq, Repr

/-- IntentDetector extract_args_from_text: intent-specific capture of
trailing content, stripped; a failed match leaves the args empty. -/
def extract_args_from_text (text : String) (intent : String) : List (String × String) :=
  if intent = "todo.add" then
    match capGroup reAddVerbCap text with
    | some g => [("content", String.mk (pyStrip g))]
    | none => []
  else if intent = "gratitude.add" then
    match capGroup reGratitudeCap text with
    | some g => [("content", String.mk (pyStrip g))]
    | none => []
  else if intent = "journal.start" then
    match capGroup reAboutCap text with
    | some g => [("topic", String.mk (pyStrip g))]
    | none => []
  else if intent = "todo.complete" then
    match capGroup reCompleteCap text with
    | some g => [("item", String.mk (pyStrip g))]
    | none => []
  else if intent = "todo.delete" then
    match capGroup reDeleteCap text with
    | some g => [("item", String.mk (pyStrip g))]
    | none => []
  else []

/-- Loop body of IntentDetector try_regex_patterns over the pattern table:
the first matching pattern wins with confidence 0.95, except that a todo.add
match whose extraction pattern finds no content, or only whitespace content,
falls through to the remaining patterns. -/
def tryPatternsGo (text : String) : List (String × RE) → Option IntentResult
  | [] => none
  | (intent_name, pat) :: rest =>
    if reSearch pat text then
      if intent_name = "todo.add" then
        match capGroup reAddVerbCap text with
        | none => tryPatternsGo text rest
        | some g =>
          if pyStrip g = [] then tryPatternsGo text rest
          else some ⟨intent_name, 0.95, extract_args_from_text text intent_name⟩
      else some ⟨intent_name, 0.95, extract_args_from_text text intent_name⟩
    else tryPatternsGo text rest

/-- IntentDetector try_regex_patterns. -/
def try_regex_patterns (text : String) : Option IntentResult :=
  tryPatternsGo text patternList

/-! ## LLM classification entry point (src/backend/services/deepseek.py) -/

/-- Skip the format spec of a replacement field after its colon or bang,
counting nested braces; returns the text after the closing brace. -/
def skipSpec : Nat → List Char → Option (List Char)
  | _, [] => none
  | depth, c :: r =>
    if c = '{' then skipSpec (depth + 1) r
    else if c = '}' then (if depth = 0 then some r else skipSpec (depth - 1) r)
    else skipSpec depth r

/-- Python str.format with keyword arguments, one consumed char per unit of
fuel: literal text is copied, a doubled brace is an escape, a replacement
field's name runs to the first colon, bang or closing brace and is looked up
among the keywords; an unknown name raises KeyError.  The conversion and
format spec of a found field are skipped rather than applied, a path no
caller of this model reaches. -/
def pyFormatGo (kwargs : List (String × String)) : Nat → List Char → Except String (List Char)
  | 0, _ => Except.error "format: fuel exhausted"
  | _, [] => Except.ok []
  | Nat.succ n, c :: rest =>
    if c = '{' then
      match rest with
      | '{' :: r => (pyFormatGo kwargs n r).map (fun out => '{' :: out)
      | _ =>
        let nm := rest.takeWhile (fun d => !(d = ':' || d = '!' || d = '}'))
        let r1 := rest.dropWhile (fun d => !(d = ':' || d = '!' || d = '}'))
        match List.lookup (String.mk nm) kwargs with
        | none => Except.error ("KeyError: " ++ String.mk nm)
        | some v =>
          match r1 with
          | '}' :: r2 => (pyFormatGo kwargs n r2).map (fun out => v.data ++ out)
          | _ :: r2 =>
            match skipSpec 0 r2 with
            | some r3 => (pyFormatGo kwargs n r3).map (fun out => v.data ++ out)
            | none => Except.error "expected closing brace in format string"
          | [] => Except.error "Single opening brace encountered in format string"
    else if c = '}' then
      match rest with
      | '}' :: r => (pyFormatGo kwargs n r).map (fun out => '}' :: out)
      | _ => Except.error "Single closing brace encountered in format string"
    else
      (pyFormatGo kwargs n rest).map (fun out => c :: out)

/-- Python str.format with keyword arguments over a whole template. -/
def pyFormat (kwargs : List (String × String)) (template : String) : Except String String :=
  (pyFormatGo kwargs (template.length + 1) template.data).map String.mk

/-- The classifier prompt template of classify_intent, verbatim: its JSON
example holds literal braces, which str.format reads as replacement fields. -/
def classifierPromptTemplate : String :=
  "You are an intent classifier for a wellness assistant. Analyze the user's input and determine their intent.\n\nAvailable intents:\n- small_talk: General conversation, questions, greetings, casual chat\n- journal.start: Starting a journaling session\n- gratitude.add: Adding a gratitude entry\n- todo.add: Adding a to-do item\n- todo.list: Showing to-do list\n- todo.complete: Completing a to-do item\n- todo.delete: Deleting a to-do item\n- quote.get: Getting a spiritual quote\n- meditation.play: Starting meditation\n- session.end: Ending the session\n\nRespond with JSON only in this exact format:\n\x7b\"intent\": \"intent_name\", \"confidence\": 0.0-1.0, \"args\": \x7b\"key\": \"value\"\x7d\x7d\n\nUser input: {text}"

/-- Outcome of the provider call and JSON handling inside the try blocks of
classify_intent, as an oracle: the create call can raise, the returned
content can fail json.loads, parse but miss a required key, or parse
completely. -/
inductive ClassifierOutcome where
  | provider_raises
  | unparseable_json
  | missing_keys
  | valid (intent : String) (confidence : ℚ) (args : List (String × String))

/-- DeepSeekClient.classify_intent.  The classifier prompt is passed through
str.format before the try block; the JSON example's literal braces make
format raise KeyError on its first replacement field on every call, so the
provider is never reached.  Past the format call, the inner except maps
unparseable JSON to the 0.5 fallback and the outer except maps a provider
failure or missing required keys (a ValueError) to the 0.3 fallback. -/
def classify_intent (outcome : ClassifierOutcome) (text : String) : Except String IntentResult :=
  match pyFormat [("text", text)] classifierPromptTemplate with
  | Except.error e => Except.error e
  | Except.ok _ =>
    match outcome with
    | ClassifierOutcome.provider_raises => Except.ok ⟨"small_talk", 0.3, []⟩
    | ClassifierOutcome.unparseable_json => Except.ok ⟨"small_talk", 0.5, []⟩
    | ClassifierOutcome.missing_keys => Except.ok ⟨"small_talk", 0.3, []⟩
    | ClassifierOutcome.valid i c a => Except.ok ⟨i, c, a⟩

/-- IntentDetector.detect_intent: the regex fast path first; if no pattern
applies, the LLM classifier inside a catch-all that fails open to the
small_talk result with confidence 0.3. -/
def detect_intent (outcome : ClassifierOutcome) (text : String) : IntentResult :=
  match try_regex_patterns text with
  | some r => r
  | none =>
    match classify_intent outcome text with
    | Except.ok r => r
    | Except.error _ => ⟨"small_talk", 0.3, []⟩

/-! ## Chat-turn orchestration (src/backend/api/routes/llm.py)

External effects enter chat_turn as an oracle: whether the 50 ms safety
timeout fired, the classifier outcome, the completion call's outcome, an
unexpected exception injected anywhere in the turn body (the outer except
catches whatever no inner stage handled), the elapsed wall-clock
milliseconds read when the returned card is stamped, and the request
timestamp string. -/

/-- Request schema of the chat turn endpoint (class ChatTurnRequest). -/
structure ChatTurnRequest where
  text : String
  user_id : String
  conversation_id : Option String
  session_id : Option String
  trace_id : Option String
deriving Repr

/-- Oracle for the external effects of one chat turn. -/
structure TurnOracle where
  safety_timed_out : Bool
  classifier : ClassifierOutcome
  completion : Except String String
  unexpected : Option String
  elapsed_ms : Int
  ts_utc : String

/-- Mock request envelope run_safety_check builds for the safety tool:
trace id safety_check, session id defaulted with the Python or operator,
args carrying the text, language, context and timestamp. -/
def buildSafetyRequest (text user_id : String) (session_id : Option String)
    (ts_utc : String) : MCPRequest :=
  ⟨"safety_check", user_id, none,
    some (match session_id with
      | some s => if s = "" then "unknown" else s
      | none => "unknown"),
    [("text", text), ("lang", "en"), ("context", "chat"), ("session_ts", ts_utc)], ts_utc⟩

/-- run_safety_check of the chat-turn route: the safety tool is awaited with
ctx = None under a 50 ms timeout; a timeout or any exception fails open to
None, and a returned card is surfaced only when its meta action is
show_support_card. -/
def run_safety_check (o : TurnOracle) (text user_id : String)
    (session_id : Option String) : Option Card :=
  if o.safety_timed_out then none
  else
    match safety_check none (buildSafetyRequest text user_id session_id o.ts_utc) with
    | Except.error _ => none
    | Except.ok safety_result =>
      if metaGet safety_result.meta "action" = some (MetaVal.str "show_support_card") then
        some safety_result
      else none

/-- Static stub-card table of generate_stub_card: intent to title, body and
meta kind. -/
def stub_cards : List (String × String × String × String) :=
  [("journal.start", "Journal Session", "Opening your journal overlay... (stub)", "journal"),
   ("gratitude.add", "Gratitude Added", "I've noted your gratitude entry. (stub)", "gratitude"),
   ("todo.add", "To-Do Added", "Added to your to-do list. (stub)", "todo"),
   ("todo.list", "Your To-Dos", "Here are your open tasks... (stub)", "todo"),
   ("todo.complete", "To-Do Completed", "Marked as completed. (stub)", "todo"),
   ("todo.delete", "To-Do Deleted", "Removed from your list. (stub)", "todo"),
   ("quote.get", "Spiritual Quote", "Here's a quote for reflection... (stub)", "quote"),
   ("meditation.play", "Meditation Starting", "Preparing your meditation... (stub)", "meditation"),
   ("session.end", "Session Ending", "Take care, talk soon! (stub)", "info")]

/-- generate_stub_card: the table entry for the intent, or the generic
Action Completed entry, wrapped in an ok card whose duration the caller
overwrites. -/
def generate_stub_card (intent : String) (args : List (String × String)) : Card :=
  let card_data := (List.lookup intent stub_cards).getD
    ("Action Completed", "Your request has been processed. (stub)", "info")
  ok_card card_data.1 card_data.2.1 (some [("kind", MetaVal.str card_data.2.2)]) none
    (some ⟨"llm.chat_turn", 0, none, none⟩)

/-- In-place update card.diagnostics.duration_ms = elapsed. -/
def setDuration (c : Card) (d : Int) : Card :=
  ⟨c.status, c.type, c.title, c.body, c.meta, c.persisted_ids,
    ⟨c.diagnostics.tool, d, c.diagnostics.memory_used, c.diagnostics.memory_latency_ms⟩,
    c.error_code⟩

/-- Body of the try block of chat_turn: safety check, intent detection, and
the small-talk or stub-card route; an injected unexpected exception, or one
raised by a stage with no inner handler, surfaces as Except.error. -/
def chat_turn_body (o : TurnOracle) (req : ChatTurnRequest) : Except String Card :=
  match o.unexpected with
  | some e => Except.error e
  | none =>
    match run_safety_check o req.text req.user_id req.session_id with
    | some safety_card => Except.ok (setDuration safety_card o.elapsed_ms)
    | none =>
      let intent_result := detect_intent o.classifier req.text
      if intent_result.intent = "small_talk" then
        match o.completion with
        | Except.ok response_text =>
          Except.ok (ok_card "Chat Response" response_text
            (some [("kind", MetaVal.str "info")]) none
            (some ⟨"llm.chat_turn", o.elapsed_ms, none, none⟩))
        | Except.error _ =>
          Except.ok (error_card "Chat Error"
            "I'm having trouble responding right now. Please try again."
            "LLM_COMPLETION_FAILED" "llm.chat_turn"
            (some ⟨"llm.chat_turn", o.elapsed_ms, none, none⟩))
      else
        Except.ok (setDuration (generate_stub_card intent_result.intent intent_result.args)
          o.elapsed_ms)

/-- chat_turn endpoint handler: the whole body runs inside a try whose
except converts any uncaught exception into the TURN_PROCESSING_FAILED
error card, so the handler always returns a card. -/
def chat_turn (o : TurnOracle) (req : ChatTurnRequest) : Card :=
  match chat_turn_body o req with
  | Except.ok card => card
  | Except.error _ =>
    error_card "Processing Error"
      "Something went wrong processing your request. Please try again."
      "TURN_PROCESSING_FAILED" "llm.chat_turn"
      (some ⟨"llm.chat_turn", o.elapsed_ms, none, none⟩)

/-! ## Transcript relay (src/backend/api/routes/speech.py and
src/backend/services/deepgram_stt.py)

The upstream-to-client task iterates over the messages of the upstream
socket; each one is JSON-parsed (a failure is logged and skipped), fed to
the transcript parser, and a parsed event is reshaped into the wire frame
sent to the client.  One relay session is the function of the finite list
of messages the upstream connection delivered. -/

/-- First alternative of a transcript payload: dict.get models for the
transcript and confidence keys. -/
structure DGAlternative where
  transcript : Option String
  confidence : Option ℚ
deriving DecidableEq, Repr

/-- Channel object of a transcript payload. -/
structure DGChannel where
  alternatives : Option (List DGAlternative)
  index : Option Int
deriving DecidableEq, Repr

/-- Decoded JSON payload of one upstream message, restricted to the keys
the parser reads. -/
structure DGData where
  channel : Option DGChannel
  is_final : Option Bool
deriving DecidableEq, Repr

/-- Normalized transcript event (dataclass TranscriptEvent). -/
structure TranscriptEvent where
  is_final : Bool
  text : String
  channel : Option Int
  confidence : Option ℚ
  raw : Option DGData
deriving DecidableEq, Repr

/-- DeepgramSTTClient parse_transcript_message: requires a channel object
with an alternatives key holding a nonempty list; reads the first
alternative's transcript (default empty) and confidence, the channel index,
and the top-level is_final flag (default false); anything else is None. -/
def parse_transcript_message (data : DGData) : Option TranscriptEvent :=
  match data.channel with
  | none => none
  | some channel_data =>
    match channel_data.alternatives with
    | none => none
    | some alternatives =>
      match alternatives with
      | [] => none
      | alternative :: _ =>
        some ⟨data.is_final.getD false, alternative.transcript.getD "",
          channel_data.index, alternative.confidence, some data⟩

/-- JSON frame sent to the client for one transcript event. -/
structure ClientFrame where
  type : String
  text : String
  confidence : Option ℚ
  channel : Option Int
deriving DecidableEq, Repr

/-- One upstream websocket message: either text that json.loads rejects, or
a decoded payload. -/
inductive UpstreamMsg where
  | malformed (raw : String)
  | parsed (data : DGData)

/-- Response object built for a transcript event: type final or partial
from the is_final flag, the text, and the optional confidence and channel
keys when present. -/
def frameOfEvent (ev : TranscriptEvent) : ClientFrame :=
  ⟨if ev.is_final then "final" else "partial", ev.text, ev.confidence, ev.channel⟩

/-- deepgram_to_client relay loop: each upstream message is JSON-parsed (a
JSONDecodeError is logged and the loop continues), run through the
transcript parser, and a parsed event's frame is sent to the client; an
event with is_final set does not end the loop. -/
def deepgram_to_client : List UpstreamMsg → List ClientFrame
  | [] => []
  | UpstreamMsg.malformed _ :: rest => deepgram_to_client rest
  | UpstreamMsg.parsed d :: rest =>
    match parse_transcript_message d with
    | some ev => frameOfEvent ev :: deepgram_to_client rest
    | none => deepgram_to_client rest

/-- Spec-side description of the relay, written from the specification's
words for comparison: the events of the parseable messages, in order. -/
def specTranscriptEvents (msgs : List UpstreamMsg) : List TranscriptEvent :=
  msgs.filterMap (fun m =>
    match m with
    | UpstreamMsg.malformed _ => none
    | UpstreamMsg.parsed d => parse_transcript_message d)

/-- Spec-side description of the frames the client receives: one frame per
parseable event, in upstream order. -/
def specRelayFrames (msgs : List UpstreamMsg) : List ClientFrame :=
  (specTranscriptEvents msgs).map frameOfEvent

/-! ## Helper lemmas -/

/-- The classifier prompt template makes str.format raise KeyError on its
first replacement field, whatever text is supplied for the text keyword. -/
theorem pyFormat_classifier_raises (t : String) :
    pyFormat [("text", t)] classifierPromptTemplate = Except.error "KeyError: \"intent\"" := rfl

/-- classify_intent raises on every call, whatever the provider would have
done: the KeyError from prompt formatting precedes the try block. -/
theorem classify_intent_raises (o : ClassifierOutcome) (t : String) :
    classify_intent o t = Except.error "KeyError: \"intent\"" := by
  unfold classify_intent
  rw [pyFormat_classifier_raises]

/-- The chat-turn route calls the safety tool with ctx = None, so the tool
raises before returning a card and run_safety_check always fails open. -/
theorem run_safety_check_none (o : TurnOracle) (text user_id : String)
    (session_id : Option String) : run_safety_check o text user_id session_id = none := by
  unfold run_safety_check safety_check
  split <;> rfl

/-- A successful association-list lookup comes from an entry of the list. -/
theorem mem_of_lookup_eq_some {α : Type} (k : String) :
    ∀ (l : List (String × α)) (v : α), List.lookup k l = some v → (k, v) ∈ l := by
  intro l
  induction l with
  | nil => intro v h; simp [List.lookup] at h
  | cons p rest ih =>
    intro v h
    obtain ⟨k', v'⟩ := p
    rw [List.lookup] at h
    split at h
    · next heq =>
      cases h
      have hk : k = k' := eq_of_beq heq
      subst hk
      exact List.mem_cons_self _ _
    · exact List.mem_cons_of_mem _ (ih v h)

/-- Lookup commutes with mapping a function over the values of an
association list. -/
theorem lookup_map_val {α β : Type} (f : α → β) (k : String) :
    ∀ l : List (String × α),
      List.lookup k (l.map (fun p => (p.1, f p.2))) = (List.lookup k l).map f := by
  intro l
  induction l with
  | nil => rfl
  | cons p rest ih =>
    simp only [List.map, List.lookup]
    split <;> simp_all

/-- Any result of the regex fast-path loop has confidence 0.95, carries an
intent from the table it scanned, has exactly the extracted args of its
intent, and a todo.add result only arises when the extraction pattern
captured content that strip leaves nonempty. -/
theorem tryPatternsGo_spec (t : String) :
    ∀ (l : List (String × RE)) (r : IntentResult), tryPatternsGo t l = some r →
      r.confidence = 0.95 ∧ r.intent ∈ l.map Prod.fst ∧
      r.args = extract_args_from_text t r.intent ∧
      (r.intent = "todo.add" → ∃ g, capGroup reAddVerbCap t = some g ∧ pyStrip g ≠ []) := by
  intro l
  induction l with
  | nil => intro r h; simp [tryPatternsGo] at h
  | cons entry rest ih =>
    intro r h
    obtain ⟨intent_name, pat⟩ := entry
    rw [tryPatternsGo] at h
    split at h
    · split at h
      · next hn =>
        split at h
        · obtain ⟨hc, hm, ha, hg⟩ := ih r h
          exact ⟨hc, List.mem_cons_of_mem _ hm, ha, hg⟩
        · next g hcap =>
          split at h
          · obtain ⟨hc, hm, ha, hg⟩ := ih r h
            exact ⟨hc, List.mem_cons_of_mem _ hm, ha, hg⟩
          · next hstrip =>
            cases h
            exact ⟨rfl, by simp, rfl, fun _ => ⟨g, hcap, hstrip⟩⟩
      · next hn =>
        cases h
        exact ⟨rfl, by simp, rfl, fun he => absurd he hn⟩
    · obtain ⟨hc, hm, ha, hg⟩ := ih r h
      exact ⟨hc, List.mem_cons_of_mem _ hm, ha, hg⟩

/-! ## Claim theorems -/

/-- C2: Classifier fail-open value: whenever the regex fast path does not
settle the text and the classification capability raises, returns
unparseable JSON, or returns JSON missing a required key, detect_intent
returns exactly the small_talk result with confidence 0.3 and empty args;
being a total function into IntentResult, it propagates no exception.  In
the code as it stands every call lands on this path, because prompt
formatting raises KeyError inside classify_intent before the provider or
the JSON handling is reached. -/
theorem detect_intent_fail_open (o : ClassifierOutcome) (t : String)
    (hregex : try_regex_patterns t = none)
    (hfail : o = ClassifierOutcome.provider_raises ∨ o = ClassifierOutcome.unparseable_json ∨
      o = ClassifierOutcome.missing_keys) :
    detect_intent o t = ⟨"small_talk", 0.3, []⟩ := by
  rcases hfail with h | h | h <;>
    (subst h; unfold detect_intent; rw [hregex, classify_intent_raises])

/-- C2 witness: a concrete text the regex path does not settle, with the
classifier returning unparseable JSON. -/
theorem detect_intent_fail_open_witness :
    detect_intent ClassifierOutcome.unparseable_json "hello there" =
      ⟨"small_talk", 0.3, []⟩ :=
  detect_intent_fail_open ClassifierOutcome.unparseable_json "hello there" (by decide)
    (Or.inr (Or.inl rfl))

/-- C6: Regex precedence and fixed confidence: the input show my to-do list
is settled by the regex fast path as todo.list with confidence 0.95 under
every classifier oracle (the LLM capability is never consulted), and any
regex fast-path result is returned unchanged by detect_intent, independent
of the classifier oracle, with confidence exactly 0.95. -/
theorem regex_precedence_fixed_confidence :
    (∀ o : ClassifierOutcome, detect_intent o "show my to-do list" =
      ⟨"todo.list", 0.95, []⟩) ∧
    (∀ (o : ClassifierOutcome) (t : String) (r : IntentResult),
      try_regex_patterns t = some r →
      detect_intent o t = r ∧ r.confidence = 0.95) := by
  constructor
  · intro o
    have h : try_regex_patterns "show my to-do list" = some ⟨"todo.list", 0.95, []⟩ := rfl
    unfold detect_intent
    rw [h]
  · intro o t r h
    have h' : tryPatternsGo t patternList = some r := h
    refine ⟨?_, (tryPatternsGo_spec t patternList r h').1⟩
    unfold detect_intent
    rw [h]

/-- C10: Regex range restriction: any regex fast-path result carries one of
the six intents of the pattern table; gratitude.add, todo.complete and
todo.delete are never produced by the regex path, so their argument
extraction branches are unreachable from it. -/
theorem try_regex_patterns_range (t : String) (r : IntentResult)
    (h : try_regex_patterns t = some r) :
    r.intent ∈ ["journal.start", "todo.list", "todo.add", "quote.get",
      "meditation.play", "session.end"] ∧
    r.intent ≠ "gratitude.add" ∧ r.intent ≠ "todo.complete" ∧ r.intent ≠ "todo.delete" := by
  have h' : tryPatternsGo t patternList = some r := h
  have hm := (tryPatternsGo_spec t patternList r h').2.1
  have hm' : r.intent ∈ ["journal.start", "todo.list", "todo.add", "quote.get",
      "meditation.play", "session.end"] := by
    simpa [patternList] using hm
  have hd : r.intent = "journal.start" ∨ r.intent = "todo.list" ∨ r.intent = "todo.add" ∨
      r.intent = "quote.get" ∨ r.intent = "meditation.play" ∨ r.intent = "session.end" := by
    simpa using hm'
  refine ⟨hm', ?_, ?_, ?_⟩ <;> rcases hd with h1 | h1 | h1 | h1 | h1 | h1 <;> rw [h1] <;> decide

/-- C10 witness: the input bye is settled by the regex path as session.end,
an intent of the six-pattern set. -/
theorem try_regex_patterns_range_witness :
    ("session.end" : String) ∈ ["journal.start", "todo.list", "todo.add", "quote.get",
      "meditation.play", "session.end"] ∧
    ("session.end" : String) ≠ "gratitude.add" ∧
    ("session.end" : String) ≠ "todo.complete" ∧
    ("session.end" : String) ≠ "todo.delete" :=
  try_regex_patterns_range "bye" ⟨"session.end", 0.95, []⟩ rfl

/-- C5: Empty-content guard for todo.add: a regex fast-path result with
intent todo.add always carries nonempty stripped content under the content
key; the inputs add todo, and add todo followed by whitespace only, are not
settled by the regex path at all, and detection of add todo falls through
to the classifier fallback, never a todo.add with empty content. -/
theorem todo_add_empty_content_guard :
    (∀ (t : String) (r : IntentResult), try_regex_patterns t = some r →
      r.intent = "todo.add" → ∃ c, r.args = [("content", c)] ∧ c ≠ "") ∧
    try_regex_patterns "add todo" = none ∧
    try_regex_patterns "add todo   " = none ∧
    (∀ o : ClassifierOutcome, detect_intent o "add todo" = ⟨"small_talk", 0.3, []⟩) := by
  refine ⟨?_, by decide, by decide, ?_⟩
  · intro t r h hint
    have h' : tryPatternsGo t patternList = some r := h
    obtain ⟨-, -, ha, hg⟩ := tryPatternsGo_spec t patternList r h'
    obtain ⟨g, hcap, hstrip⟩ := hg hint
    refine ⟨String.mk (pyStrip g), ?_, ?_⟩
    · rw [ha, hint]
      simp [extract_args_from_text, hcap]
    · intro hc
      apply hstrip
      have hdata := congrArg String.data hc
      simpa using hdata
  · intro o
    have h : try_regex_patterns "add todo" = none := by decide
    unfold detect_intent
    rw [h, classify_intent_raises]

/-- C9: Relay forwarding and order preservation: the frames the relay loop
sends to the client equal, in order, the spec-side image of the upstream
messages that parse into transcript events (one frame per parseable event,
type final or partial from the is_final flag, carrying its text and its
optional confidence and channel fields), and a malformed upstream message
is skipped without ending the relay. -/
theorem deepgram_to_client_order :
    (∀ msgs : List UpstreamMsg, deepgram_to_client msgs = specRelayFrames msgs) ∧
    (∀ (raw : String) (rest : List UpstreamMsg),
      deepgram_to_client (UpstreamMsg.malformed raw :: rest) = deepgram_to_client rest) := by
  constructor
  · intro msgs
    induction msgs with
    | nil => rfl
    | cons m rest ih =>
      cases m with
      | malformed raw =>
        simpa [deepgram_to_client, specRelayFrames, specTranscriptEvents] using ih
      | parsed d =>
        cases h : parse_transcript_message d <;>
          simp [deepgram_to_client, specRelayFrames, specTranscriptEvents, h, ih]
  · intro raw rest
    rfl

/-- The four shapes a returned chat-turn card can take: the small-talk
response card, the completion-failure error card, a duration-stamped stub
card, or the outer-barrier error card.  The safety short-circuit shape is
absent because run_safety_check always fails open (the tool is called with
ctx = None and raises). -/
theorem chat_turn_cases (o : TurnOracle) (req : ChatTurnRequest) :
    (∃ rt, chat_turn o req = ok_card "Chat Response" rt (some [("kind", MetaVal.str "info")])
      none (some ⟨"llm.chat_turn", o.elapsed_ms, none, none⟩)) ∨
    chat_turn o req = error_card "Chat Error"
      "I'm having trouble responding right now. Please try again."
      "LLM_COMPLETION_FAILED" "llm.chat_turn"
      (some ⟨"llm.chat_turn", o.elapsed_ms, none, none⟩) ∨
    (∃ intent args, chat_turn o req = setDuration (generate_stub_card intent args) o.elapsed_ms) ∨
    chat_turn o req = error_card "Processing Error"
      "Something went wrong processing your request. Please try again."
      "TURN_PROCESSING_FAILED" "llm.chat_turn"
      (some ⟨"llm.chat_turn", o.elapsed_ms, none, none⟩) := by
  unfold chat_turn chat_turn_body
  cases hu : o.unexpected with
  | some e => right; right; right; rfl
  | none =>
    rw [run_safety_check_none]
    by_cases hi : (detect_intent o.classifier req.text).intent = "small_talk"
    · cases hc : o.completion with
      | ok rt =>
        left
        exact ⟨rt, by simp [hi, hc]⟩
      | error e =>
        right; left
        simp [hi, hc]
    · right; right; left
      refine ⟨(detect_intent o.classifier req.text).intent,
        (detect_intent o.classifier req.text).args, ?_⟩
      simp [hi]

/-- Envelope invariant predicate of the spec: error_code is non-null iff
status is error, and the type is error_card iff status is error. -/
def cardInvariant (c : Card) : Prop :=
  (c.error_code ≠ none ↔ c.status = Status.error) ∧
  (c.type = CardType.error_card ↔ c.status = Status.error)

/-- C3: Card envelope invariant: every card built by ok_card, error_card or
overlay_control, for any arguments, and every card the chat-turn operation
returns, for any oracle and request, satisfies the envelope invariant. -/
theorem card_envelope_invariant :
    (∀ title body meta pids diag, cardInvariant (ok_card title body meta pids diag)) ∧
    (∀ title body ec tool diag, cardInvariant (error_card title body ec tool diag)) ∧
    (∀ title body meta diag, cardInvariant (overlay_control title body meta diag)) ∧
    (∀ (o : TurnOracle) (req : ChatTurnRequest), cardInvariant (chat_turn o req)) := by
  refine ⟨?_, ?_, ?_, ?_⟩
  · intro title body meta pids diag
    simp [cardInvariant, ok_card]
  · intro title body ec tool diag
    simp [cardInvariant, error_card]
  · intro title body meta diag
    simp [cardInvariant, overlay_control]
  · intro o req
    rcases chat_turn_cases o req with ⟨rt, h⟩ | h | ⟨intent, args, h⟩ | h <;> rw [h]
    · simp [cardInvariant, ok_card]
    · simp [cardInvariant, error_card]
    · simp [cardInvariant, setDuration, generate_stub_card, ok_card]
    · simp [cardInvariant, error_card]

/-- C4: Outermost exception barrier: an exception raised inside the turn
pipeline that no inner stage handled is caught by the chat-turn handler,
which returns the TURN_PROCESSING_FAILED error card with a generic body;
the handler is a total function into Card, so no exception crosses its
boundary. -/
theorem chat_turn_exception_barrier (o : TurnOracle) (req : ChatTurnRequest) (e : String)
    (h : o.unexpected = some e) :
    chat_turn o req =
      error_card "Processing Error"
        "Something went wrong processing your request. Please try again."
        "TURN_PROCESSING_FAILED" "llm.chat_turn"
        (some ⟨"llm.chat_turn", o.elapsed_ms, none, none⟩) := by
  unfold chat_turn chat_turn_body
  rw [h]

/-- C4 witness: a concrete turn whose body raises is answered by the
TURN_PROCESSING_FAILED error card. -/
theorem chat_turn_exception_barrier_witness :
    chat_turn ⟨false, ClassifierOutcome.provider_raises, Except.ok "hi", some "boom", 7, "t0"⟩
        ⟨"hello", "u1", none, none, none⟩ =
      error_card "Processing Error"
        "Something went wrong processing your request. Please try again."
        "TURN_PROCESSING_FAILED" "llm.chat_turn"
        (some ⟨"llm.chat_turn", 7, none, none⟩) :=
  chat_turn_exception_barrier
    ⟨false, ClassifierOutcome.provider_raises, Except.ok "hi", some "boom", 7, "t0"⟩
    ⟨"hello", "u1", none, none, none⟩ "boom" rfl

/-- C7: Diagnostics stamping: under a monotone wall clock (the elapsed
milliseconds read at the stamping instant are non-negative), every card the
chat-turn operation returns carries diagnostics tool llm.chat_turn and
duration_ms equal to the elapsed wall-clock time since turn start.  The
safety short-circuit path, whose card would keep the tool name
safety.check, is unreachable because the safety call always fails open. -/
theorem chat_turn_diagnostics_stamped (o : TurnOracle) (req : ChatTurnRequest)
    (h : 0 ≤ o.elapsed_ms) :
    (chat_turn o req).diagnostics.tool = "llm.chat_turn" ∧
    (chat_turn o req).diagnostics.duration_ms = o.elapsed_ms ∧
    0 ≤ (chat_turn o req).diagnostics.duration_ms := by
  have key : (chat_turn o req).diagnostics = ⟨"llm.chat_turn", o.elapsed_ms, none, none⟩ := by
    rcases chat_turn_cases o req with ⟨rt, hs⟩ | hs | ⟨intent, args, hs⟩ | hs <;> rw [hs] <;> rfl
  rw [key]
  exact ⟨rfl, rfl, h⟩

/-- C7 witness: a concrete turn stamped at 5 elapsed milliseconds. -/
theorem chat_turn_diagnostics_stamped_witness :
    (chat_turn ⟨false, ClassifierOutcome.provider_raises, Except.ok "hi", none, 5, "t0"⟩
        ⟨"hello", "u1", none, none, none⟩).diagnostics.tool = "llm.chat_turn" ∧
    (chat_turn ⟨false, ClassifierOutcome.provider_raises, Except.ok "hi", none, 5, "t0"⟩
        ⟨"hello", "u1", none, none, none⟩).diagnostics.duration_ms = 5 ∧
    (0 : Int) ≤ (chat_turn ⟨false, ClassifierOutcome.provider_raises, Except.ok "hi", none, 5,
        "t0"⟩ ⟨"hello", "u1", none, none, none⟩).diagnostics.duration_ms :=
  chat_turn_diagnostics_stamped
    ⟨false, ClassifierOutcome.provider_raises, Except.ok "hi", none, 5, "t0"⟩
    ⟨"hello", "u1", none, none, none⟩ (by decide)

/-- Documented stub table of the claim: tool intent to meta kind. -/
def stubIntentKinds : List (String × String) :=
  [("journal.start", "journal"), ("gratitude.add", "gratitude"), ("todo.add", "todo"),
   ("todo.list", "todo"), ("todo.complete", "todo"), ("todo.delete", "todo"),
   ("quote.get", "quote"), ("meditation.play", "meditation"), ("session.end", "info")]

/-- Looking an intent up in the documented kind table is looking it up in
the code's stub table and projecting the kind component. -/
theorem lookup_stub_kinds (intent : String) :
    List.lookup intent stubIntentKinds =
      (List.lookup intent stub_cards).map (fun v => v.2.2) := by
  simp only [stubIntentKinds, stub_cards, List.lookup]
  repeat' split
  all_goals simp_all

/-- C8: Stub-card consistency: for every intent of the documented table,
generate_stub_card returns an ok card whose meta kind is the table entry
and whose body carries the stub marker; for every intent outside the table
it returns the generic Action Completed stub with kind info. -/
theorem generate_stub_card_consistency :
    (∀ (intent : String) (args : List (String × String)) (kind : String),
      List.lookup intent stubIntentKinds = some kind →
      (generate_stub_card intent args).status = Status.ok ∧
      metaGet (generate_stub_card intent args).meta "kind" = some (MetaVal.str kind) ∧
      pyContains (generate_stub_card intent args).body "(stub)" = true) ∧
    (∀ (intent : String) (args : List (String × String)),
      List.lookup intent stubIntentKinds = none →
      generate_stub_card intent args =
        ok_card "Action Completed" "Your request has been processed. (stub)"
          (some [("kind", MetaVal.str "info")]) none
          (some ⟨"llm.chat_turn", 0, none, none⟩)) := by
  constructor
  · intro intent args kind h
    rw [lookup_stub_kinds] at h
    obtain ⟨v, hv, hk⟩ := Option.map_eq_some'.mp h
    have hmem := mem_of_lookup_eq_some intent stub_cards v hv
    have hstub : ∀ p ∈ stub_cards, pyContains p.2.2.1 "(stub)" = true := by decide
    refine ⟨rfl, ?_, ?_⟩
    · subst hk
      unfold generate_stub_card
      rw [hv]
      rfl
    · have hb := hstub (intent, v) hmem
      unfold generate_stub_card
      rw [hv]
      exact hb
  · intro intent args h
    rw [lookup_stub_kinds] at h
    have hnone : List.lookup intent stub_cards = none := Option.map_eq_none'.mp h
    simp [generate_stub_card, hnone]

/-- C8 witness: the todo.list intent, in the table with kind todo, and an
intent outside the table, answered by the generic stub. -/
theorem generate_stub_card_consistency_witness :
    ((generate_stub_card "todo.list" []).status = Status.ok ∧
      metaGet (generate_stub_card "todo.list" []).meta "kind" = some (MetaVal.str "todo") ∧
      pyContains (generate_stub_card "todo.list" []).body "(stub)" = true) ∧
    generate_stub_card "unknown.intent" [] =
      ok_card "Action Completed" "Your request has been processed. (stub)"
        (some [("kind", MetaVal.str "info")]) none
        (some ⟨"llm.chat_turn", 0, none, none⟩) :=
  ⟨generate_stub_card_consistency.1 "todo.list" [] "todo" rfl,
    generate_stub_card_consistency.2 "unknown.intent" [] rfl⟩

/-- C1: Safety short-circuit, settled as a code bug at the concrete crisis
input.  The phrase hurt myself is configured and occurs in the lowered
text, yet the safety tool called with ctx = None raises AttributeError
before it can return its support card, so run_safety_check fails open and
the turn proceeds to intent detection and the completion call: the
returned card is the small-talk response (or the LLM-failure error card
when the completion fails), never the support card with meta action
show_support_card that the claim and the repository's own integration test
expect. -/
theorem chat_turn_safety_short_circuit_bug :
    ("hurt myself" ∈ concerning_phrases ∧
      pyContains (pyLower "I want to hurt myself") "hurt myself" = true) ∧
    safety_check none (buildSafetyRequest "I want to hurt myself" "u1" none "t0") =
      Except.error "AttributeError: 'NoneType' object has no attribute 'timing'" ∧
    run_safety_check ⟨false, ClassifierOutcome.provider_raises, Except.ok "resp", none, 7, "t0"⟩
      "I want to hurt myself" "u1" none = none ∧
    chat_turn ⟨false, ClassifierOutcome.provider_raises, Except.ok "resp", none, 7, "t0"⟩
        ⟨"I want to hurt myself", "u1", none, none, none⟩ =
      ok_card "Chat Response" "resp" (some [("kind", MetaVal.str "info")]) none
        (some ⟨"llm.chat_turn", 7, none, none⟩) ∧
    chat_turn ⟨false, ClassifierOutcome.provider_raises, Except.error "provider down", none, 7,
        "t0"⟩ ⟨"I want to hurt myself", "u1", none, none, none⟩ =
      error_card "Chat Error" "I'm having trouble responding right now. Please try again."
        "LLM_COMPLETION_FAILED" "llm.chat_turn" (some ⟨"llm.chat_turn", 7, none, none⟩) := by
  refine ⟨⟨by decide, by decide⟩, rfl, run_safety_check_none _ _ _ _, ?_, ?_⟩ <;> rfl

end WellBot
